import Mathlib

/-!
Shallow embedding of the compliance and risk scoring engines of the
complianceHUB backend (Django), together with theorems settling the
frozen claims about them.

Conventions of the embedding:
 - machine integers are modelled as Int or Nat (no overflow is possible in
   the Python source);
 - Python float arithmetic on the score formulas is modelled exactly over
   the rationals; the builtin round(x, 2) (banker rounding, half to even)
   is modelled by pyRound2;
 - dates are day numbers (Int); "today" is passed explicitly where the
   source calls timezone.now().date();
 - Django querysets become explicit lists with explicit filters; a dict
   keyed by str(uuid) becomes an association list keyed by Nat (str is
   injective on ids, and primary keys are unique);
 - code that raises becomes Except String.
-/

deriving instance DecidableEq for Except

/-- Round half to even of a rational to an integer, as the Python builtin
round does on exact values. -/
def pyRoundEven (q : ℚ) : ℤ :=
  let n : ℤ := ⌊q⌋
  let f : ℚ := q - (n : ℚ)
  if f < 1/2 then n
  else if 1/2 < f then n + 1
  else if n % 2 = 0 then n else n + 1

/-- Model of the Python expression round(x, 2): round half to even at two
decimal places. -/
def pyRound2 (q : ℚ) : ℚ := ((pyRoundEven (q * 100) : ℚ)) / 100

/-! ## Controls: AppliedControl and its compliance score
Source: src/backend/controls/models.py -/

/-- A row of the AppliedControlEvidence link table; only the soft-delete
flag matters to the scoring code. -/
structure AppliedControlEvidence where
  is_deleted : Bool
  deriving DecidableEq

/-- The slice of ReferenceControl read by the engines. -/
structure ReferenceControl where
  id : Nat
  code : String
  name : String
  deriving DecidableEq

/-- The slice of AppliedControl read by the engines
(controls/models.py, class AppliedControl). -/
structure AppliedControl where
  id : Nat
  company : Nat
  department : Option Nat
  reference_control : ReferenceControl
  status : String
  has_deficiencies : Bool
  next_review_date : Option Int
  evidence_links : List AppliedControlEvidence
  is_deleted : Bool
  deriving DecidableEq

/-- AppliedControl.get_evidence_count: evidence_links.filter(is_deleted=False).count(). -/
def AppliedControl.get_evidence_count (c : AppliedControl) : Nat :=
  (c.evidence_links.filter (fun e => !e.is_deleted)).length

/-- AppliedControl.is_overdue_for_review: False when next_review_date is
unset, otherwise today strictly after the date. -/
def AppliedControl.is_overdue_for_review (c : AppliedControl) (today : Int) : Bool :=
  match c.next_review_date with
  | none => false
  | some d => today > d

/-- The status_scores dict of AppliedControl.calculate_compliance_score. -/
def statusScores : List (String × Int) :=
  [("not_started", 0), ("in_progress", 25), ("implemented", 50),
   ("testing", 60), ("operational", 85), ("needs_improvement", 40),
   ("non_compliant", 0)]

/-- AppliedControl.calculate_compliance_score
(controls/models.py lines 339-371): base from status, evidence bonus with
cap, deficiency penalty, overdue penalty. -/
def AppliedControl.calculate_compliance_score (c : AppliedControl) (today : Int) : Int :=
  let score : Int := (statusScores.lookup c.status).getD 0
  let evidence_count := c.get_evidence_count
  let score := if evidence_count > 0 then min (score + (evidence_count : Int) * 5) 100 else score
  let score := if c.has_deficiencies then max (score - 20) 0 else score
  let score := if c.is_overdue_for_review today then max (score - 10) 0 else score
  score

/-- The base score lies in the fixed table, whatever the status string. -/
theorem statusScore_cases (s : String) :
    (statusScores.lookup s).getD 0 = 0 ∨ (statusScores.lookup s).getD 0 = 25 ∨
    (statusScores.lookup s).getD 0 = 50 ∨ (statusScores.lookup s).getD 0 = 60 ∨
    (statusScores.lookup s).getD 0 = 85 ∨ (statusScores.lookup s).getD 0 = 40 := by
  simp only [statusScores, List.lookup]
  repeat' split
  all_goals simp

/-- The dict lookup with default agrees with the literal if-chain of the
specification. -/
theorem statusScore_chain (s : String) :
    (if s = "not_started" then (0 : Int)
      else if s = "in_progress" then 25
      else if s = "implemented" then 50
      else if s = "testing" then 60
      else if s = "operational" then 85
      else if s = "needs_improvement" then 40
      else if s = "non_compliant" then 0
      else 0) = (statusScores.lookup s).getD 0 := by
  simp only [statusScores, List.lookup]
  repeat' split
  all_goals simp_all

/-- The base score is between 0 and 100. -/
theorem statusScore_bounds (s : String) :
    0 ≤ (statusScores.lookup s).getD 0 ∧ (statusScores.lookup s).getD 0 ≤ 100 := by
  rcases statusScore_cases s with h | h | h | h | h | h <;> omega

/-- C1: for every AppliedControl, calculate_compliance_score equals the
value obtained by taking the base score from status (not_started=0,
in_progress=25, implemented=50, testing=60, operational=85,
needs_improvement=40, non_compliant=0, unknown=0), then adding 5 per
linked non-deleted evidence item capped at 100, then subtracting 20 if
has_deficiencies floored at 0, then subtracting 10 if next_review_date is
in the past floored at 0, in exactly that order, each penalty re-flooring
at 0 separately. -/
theorem calculate_compliance_score_spec (c : AppliedControl) (today : Int) :
    c.calculate_compliance_score today =
      (let base : Int :=
        if c.status = "not_started" then 0
        else if c.status = "in_progress" then 25
        else if c.status = "implemented" then 50
        else if c.status = "testing" then 60
        else if c.status = "operational" then 85
        else if c.status = "needs_improvement" then 40
        else if c.status = "non_compliant" then 0
        else 0
      let afterEvidence : Int := min (base + (c.get_evidence_count : Int) * 5) 100
      let afterDeficiency : Int :=
        if c.has_deficiencies then max (afterEvidence - 20) 0 else afterEvidence
      if c.is_overdue_for_review today then max (afterDeficiency - 10) 0 else afterDeficiency) := by
  have hb := statusScore_bounds c.status
  unfold AppliedControl.calculate_compliance_score
  dsimp only
  rw [statusScore_chain]
  have hstep :
      (if c.get_evidence_count > 0 then
        min ((statusScores.lookup c.status).getD 0 + (c.get_evidence_count : Int) * 5) 100
      else (statusScores.lookup c.status).getD 0) =
      min ((statusScores.lookup c.status).getD 0 + (c.get_evidence_count : Int) * 5) 100 := by
    split_ifs with hc
    · rfl
    · omega
  rw [hstep]

/-- Applying a conditional flat penalty with floor 0 preserves order. -/
theorem ite_max_sub_mono (d : Bool) (k x y : Int) (h : x ≤ y) :
    (if d then max (x - k) 0 else x) ≤ (if d then max (y - k) 0 else y) := by
  split_ifs <;> omega

/-- C9: increasing the count of linked non-deleted evidence items, all
other fields fixed, never decreases calculate_compliance_score, and the
score never exceeds 100. -/
theorem calculate_compliance_score_evidence_monotone_capped
    (c : AppliedControl) (today : Int) (e₁ e₂ : List AppliedControlEvidence)
    (h : ({c with evidence_links := e₁} : AppliedControl).get_evidence_count ≤
         ({c with evidence_links := e₂} : AppliedControl).get_evidence_count) :
    ({c with evidence_links := e₁} : AppliedControl).calculate_compliance_score today ≤
      ({c with evidence_links := e₂} : AppliedControl).calculate_compliance_score today ∧
    c.calculate_compliance_score today ≤ 100 := by
  constructor
  · have hb := statusScore_bounds c.status
    unfold AppliedControl.calculate_compliance_score
    dsimp only
    have hov₁ : ({c with evidence_links := e₁} : AppliedControl).is_overdue_for_review today =
        c.is_overdue_for_review today := rfl
    have hov₂ : ({c with evidence_links := e₂} : AppliedControl).is_overdue_for_review today =
        c.is_overdue_for_review today := rfl
    rw [hov₁, hov₂]
    refine ite_max_sub_mono _ 10 _ _ (ite_max_sub_mono _ 20 _ _ ?_)
    split_ifs <;> omega
  · have hb := statusScore_bounds c.status
    unfold AppliedControl.calculate_compliance_score
    dsimp only
    split_ifs <;> omega

/-- Witness for C9 at a concrete control: one non-deleted evidence item
versus three. -/
theorem calculate_compliance_score_evidence_monotone_capped_witness :
    ({ id := 1, company := 1, department := none,
       reference_control := { id := 1, code := "A.5.1", name := "Policies" },
       status := "operational", has_deficiencies := false,
       next_review_date := none,
       evidence_links := [{ is_deleted := false }],
       is_deleted := false } : AppliedControl).calculate_compliance_score 0 ≤
      ({ id := 1, company := 1, department := none,
         reference_control := { id := 1, code := "A.5.1", name := "Policies" },
         status := "operational", has_deficiencies := false,
         next_review_date := none,
         evidence_links := [{ is_deleted := false }, { is_deleted := false }, { is_deleted := false }],
         is_deleted := false } : AppliedControl).calculate_compliance_score 0 := by
  have h := calculate_compliance_score_evidence_monotone_capped
    { id := 1, company := 1, department := none,
      reference_control := { id := 1, code := "A.5.1", name := "Policies" },
      status := "operational", has_deficiencies := false,
      next_review_date := none,
      evidence_links := [{ is_deleted := false }],
      is_deleted := false } 0
    [{ is_deleted := false }]
    [{ is_deleted := false }, { is_deleted := false }, { is_deleted := false }]
    (by decide)
  exact h.1

/-! ## Risk matrix and risk records
Source: src/backend/risk/models.py -/

/-- The slice of RiskMatrix read by the engines. The Python score table is
a dict keyed by the string f-string of the pair; that encoding is
injective on integers, so keys are modelled as integer pairs. -/
structure RiskMatrix where
  likelihood_levels : Int
  impact_levels : Int
  risk_score_matrix : List ((Int × Int) × Int)
  low_risk_threshold : Int
  medium_risk_threshold : Int
  high_risk_threshold : Int
  deriving DecidableEq

/-- RiskMatrix.calculate_risk_score (risk/models.py lines 97-121):
validate both inputs against the level counts, raising ValueError out of
range; look the pair up in the configured table; fall back to the
product. -/
def RiskMatrix.calculate_risk_score (m : RiskMatrix) (likelihood impact : Int) :
    Except String Int :=
  if likelihood < 1 ∨ likelihood > m.likelihood_levels then
    .error ("Likelihood must be between 1 and " ++ toString m.likelihood_levels)
  else if impact < 1 ∨ impact > m.impact_levels then
    .error ("Impact must be between 1 and " ++ toString m.impact_levels)
  else
    match m.risk_score_matrix.lookup (likelihood, impact) with
    | some v => .ok v
    | none => .ok (likelihood * impact)

/-- RiskMatrix.get_risk_level: banded thresholds. -/
def RiskMatrix.get_risk_level (m : RiskMatrix) (score : Int) : String :=
  if score < m.low_risk_threshold then "low"
  else if score < m.medium_risk_threshold then "medium"
  else if score < m.high_risk_threshold then "high"
  else "critical"

/-- C6: calculate_risk_score errors exactly when likelihood is outside
[1, likelihood_levels] or impact is outside [1, impact_levels]; for every
in-range pair it returns the configured table entry when present, and
likelihood times impact when absent. -/
theorem calculate_risk_score_spec (m : RiskMatrix) (l i : Int) :
    ((∃ e, m.calculate_risk_score l i = .error e) ↔
      (l < 1 ∨ l > m.likelihood_levels ∨ i < 1 ∨ i > m.impact_levels)) ∧
    (1 ≤ l → l ≤ m.likelihood_levels → 1 ≤ i → i ≤ m.impact_levels →
      m.calculate_risk_score l i = .ok ((m.risk_score_matrix.lookup (l, i)).getD (l * i))) := by
  constructor
  · constructor
    · rintro ⟨e, he⟩
      unfold RiskMatrix.calculate_risk_score at he
      split_ifs at he with h1 h2
      · tauto
      · tauto
      · revert he
        cases m.risk_score_matrix.lookup (l, i) <;> simp
    · intro hcond
      unfold RiskMatrix.calculate_risk_score
      split_ifs with h1 h2
      · exact ⟨_, rfl⟩
      · exact ⟨_, rfl⟩
      · push_neg at h1 h2
        rcases hcond with h | h | h | h <;> omega
  · intro hl1 hl2 hi1 hi2
    unfold RiskMatrix.calculate_risk_score
    rw [if_neg (by omega), if_neg (by omega)]
    cases hk : m.risk_score_matrix.lookup (l, i) <;> simp [hk]

/-- A concrete default-style 5x5 matrix with an empty score table. -/
def wMatrix : RiskMatrix :=
  { likelihood_levels := 5, impact_levels := 5, risk_score_matrix := [],
    low_risk_threshold := 6, medium_risk_threshold := 12, high_risk_threshold := 20 }

/-- Witness for C6: the in-range pair (2, 3) of a matrix with an empty
table falls back to the product 6. -/
theorem calculate_risk_score_spec_witness :
    wMatrix.calculate_risk_score 2 3 = .ok ((wMatrix.risk_score_matrix.lookup (2, 3)).getD (2 * 3)) := by
  exact (calculate_risk_score_spec wMatrix 2 3).2 (by norm_num) (by decide) (by norm_num) (by decide)

/-- The slice of Risk read by the engines: inherent likelihood and impact
together with the derived score and level maintained by Risk.save. -/
structure Risk where
  company : Nat
  inherent_likelihood : Int
  inherent_impact : Int
  inherent_risk_score : Int
  inherent_risk_level : String
  deriving DecidableEq

/-- The slice of RiskAssessment read by the engines: the stored residual
fields computed by RiskAssessment.save, the effectiveness fields, and the
currency flags. -/
structure RiskAssessment where
  control_effectiveness : String
  effectiveness_rating : Int
  residual_likelihood : Int
  residual_impact : Int
  residual_score : Int
  residual_risk_level : String
  is_current : Bool
  is_deleted : Bool
  deriving DecidableEq

/-- RiskAssessment.get_risk_reduction (risk/models.py lines 606-618): the
clamped reduction percentage. This model method is NOT called by
RiskCalculationService.calculate_aggregate_residual_risk. -/
def RiskAssessment.get_risk_reduction (a : RiskAssessment) (risk : Risk) : ℚ :=
  let inherent := risk.inherent_risk_score
  if inherent = 0 then 0
  else max 0 (min 100 (((inherent - a.residual_score : ℤ) : ℚ) / (inherent : ℚ) * 100))

/-- Python int() truncates toward zero. -/
def pyTrunc (q : ℚ) : ℤ := if 0 ≤ q then ⌊q⌋ else -⌊-q⌋

/-- RiskCalculationService.assess_risk_with_control
(risk/services.py lines 13-70): demote every current assessment of the
risk, derive the residual likelihood and impact from the effectiveness
rating, band the effectiveness, and create the new current assessment,
whose save computes the residual score and level through the matrix bound
to the risk. The list argument holds the assessments of this risk; the
result pairs the updated list with the created assessment. -/
def assess_risk_with_control (risk : Risk) (matrix : RiskMatrix)
    (assessments : List RiskAssessment) (effectiveness_rating : Int) :
    Except String (List RiskAssessment × RiskAssessment) :=
  let demoted := assessments.map (fun a => if a.is_current then { a with is_current := false } else a)
  let reduction : Int := pyTrunc ((effectiveness_rating : ℚ) / 100 * 2)
  let residual_likelihood := max 1 (risk.inherent_likelihood - reduction)
  let residual_impact := max 1 (risk.inherent_impact - reduction)
  let control_effectiveness :=
    if effectiveness_rating ≥ 90 then "highly_effective"
    else if effectiveness_rating ≥ 70 then "effective"
    else if effectiveness_rating ≥ 40 then "partially_effective"
    else "not_effective"
  match matrix.calculate_risk_score residual_likelihood residual_impact with
  | .error e => .error e
  | .ok s =>
    let a : RiskAssessment :=
      { control_effectiveness := control_effectiveness
        effectiveness_rating := effectiveness_rating
        residual_likelihood := residual_likelihood
        residual_impact := residual_impact
        residual_score := s
        residual_risk_level := matrix.get_risk_level s
        is_current := true
        is_deleted := false }
    .ok (demoted ++ [a], a)

/-- C7: for every effectiveness rating in [0, 100], the created
assessment has residual_likelihood = max(1, inherent_likelihood - r) and
residual_impact = max(1, inherent_impact - r) with
r = floor(rating / 100 * 2), and r is 0 for ratings 0-49, 1 for 50-99,
and 2 for rating 100. -/
theorem assess_risk_reduction_spec (risk : Risk) (matrix : RiskMatrix)
    (assessments : List RiskAssessment) (rating : Int)
    (h0 : 0 ≤ rating) (h1 : rating ≤ 100)
    (st : List RiskAssessment) (a : RiskAssessment)
    (h : assess_risk_with_control risk matrix assessments rating = .ok (st, a)) :
    a.residual_likelihood = max 1 (risk.inherent_likelihood - ⌊(rating : ℚ) / 100 * 2⌋) ∧
    a.residual_impact = max 1 (risk.inherent_impact - ⌊(rating : ℚ) / 100 * 2⌋) ∧
    ⌊(rating : ℚ) / 100 * 2⌋ =
      (if rating ≤ 49 then 0 else if rating ≤ 99 then 1 else 2) := by
  have htr : pyTrunc ((rating : ℚ) / 100 * 2) = ⌊(rating : ℚ) / 100 * 2⌋ := by
    unfold pyTrunc
    rw [if_pos]
    positivity
  have hfields :
      a.residual_likelihood = max 1 (risk.inherent_likelihood - pyTrunc ((rating : ℚ) / 100 * 2)) ∧
      a.residual_impact = max 1 (risk.inherent_impact - pyTrunc ((rating : ℚ) / 100 * 2)) := by
    unfold assess_risk_with_control at h
    dsimp only at h
    revert h
    cases matrix.calculate_risk_score
        (max 1 (risk.inherent_likelihood - pyTrunc ((rating : ℚ) / 100 * 2)))
        (max 1 (risk.inherent_impact - pyTrunc ((rating : ℚ) / 100 * 2))) with
    | error e => intro h; cases h
    | ok s =>
      intro h
      simp only [Except.ok.injEq, Prod.mk.injEq] at h
      obtain ⟨-, ha⟩ := h
      subst ha
      exact ⟨rfl, rfl⟩

  have hq0 : (0 : ℚ) ≤ (rating : ℚ) := by exact_mod_cast h0
  have hband : ⌊(rating : ℚ) / 100 * 2⌋ =
      (if rating ≤ 49 then 0 else if rating ≤ 99 then 1 else 2) := by
    split_ifs with h49 h99
    · rw [Int.floor_eq_iff]
      constructor
      · push_cast
        positivity
      · have : (rating : ℚ) ≤ 49 := by exact_mod_cast h49
        push_cast
        linarith
    · rw [Int.floor_eq_iff]
      constructor
      · have : (50 : ℚ) ≤ (rating : ℚ) := by exact_mod_cast (by omega : (50 : ℤ) ≤ rating)
        push_cast
        linarith
      · have : (rating : ℚ) ≤ 99 := by exact_mod_cast h99
        push_cast
        linarith
    · have hr : rating = 100 := by omega
      subst hr
      norm_num
  rw [htr] at hfields
  exact ⟨hfields.1, hfields.2, hband⟩

/-- A concrete risk bound to wMatrix: likelihood 3, impact 4, inherent
score 12 (product fallback), level high. -/
def wRisk : Risk :=
  { company := 1, inherent_likelihood := 3, inherent_impact := 4,
    inherent_risk_score := 12, inherent_risk_level := "high" }

/-- The assessment created for wRisk at effectiveness 75: reduction 1,
residual (2, 3), score 6, level medium. -/
def wAssessment75 : RiskAssessment :=
  { control_effectiveness := "effective", effectiveness_rating := 75,
    residual_likelihood := 2, residual_impact := 3, residual_score := 6,
    residual_risk_level := "medium", is_current := true, is_deleted := false }

/-- Evaluation of the assessment service at rating 75 on wRisk. -/
theorem assess75_eq :
    assess_risk_with_control wRisk wMatrix [] 75 = Except.ok ([wAssessment75], wAssessment75) := by
  have hfl : pyTrunc (((75 : ℤ) : ℚ) / 100 * 2) = 1 := by
    unfold pyTrunc
    rw [if_pos (by norm_num)]
    rw [show ((75 : ℤ) : ℚ) / 100 * 2 = 3 / 2 by norm_num]
    norm_num [Int.floor_eq_iff]
  unfold assess_risk_with_control
  dsimp only
  rw [hfl]
  norm_num [wRisk, wMatrix, wAssessment75, RiskMatrix.calculate_risk_score,
    RiskMatrix.get_risk_level, max_def]

/-- Witness for C7 at effectiveness rating 75: reduction 1, residual
likelihood 2 and impact 3. -/
theorem assess_risk_reduction_spec_witness :
    wAssessment75.residual_likelihood = max 1 (wRisk.inherent_likelihood - ⌊((75 : ℤ) : ℚ) / 100 * 2⌋) ∧
    wAssessment75.residual_impact = max 1 (wRisk.inherent_impact - ⌊((75 : ℤ) : ℚ) / 100 * 2⌋) ∧
    ⌊((75 : ℤ) : ℚ) / 100 * 2⌋ = (if (75 : ℤ) ≤ 49 then 0 else if (75 : ℤ) ≤ 99 then 1 else 2) :=
  assess_risk_reduction_spec wRisk wMatrix [] 75 (by norm_num) (by norm_num)
    [wAssessment75] wAssessment75 assess75_eq

/-! ## Aggregate residual risk
Source: src/backend/risk/services.py, RiskCalculationService. -/

/-- The Python builtin min with a key function keeps the first element
attaining the minimum; modelled as a left fold seeded with the head. -/
def minByResidualScore (a : RiskAssessment) (l : List RiskAssessment) : RiskAssessment :=
  l.foldl (fun best x => if x.residual_score < best.residual_score then x else best) a

theorem minByResidualScore_mem (a : RiskAssessment) (l : List RiskAssessment) :
    minByResidualScore a l ∈ a :: l := by
  induction l generalizing a with
  | nil => simp [minByResidualScore]
  | cons x t ih =>
    have h := ih (if x.residual_score < a.residual_score then x else a)
    simp only [minByResidualScore, List.foldl_cons] at h ⊢
    rcases List.mem_cons.mp h with h1 | h1
    · rw [h1]
      split_ifs <;> simp
    · simp [h1]

theorem minByResidualScore_le (a : RiskAssessment) (l : List RiskAssessment) :
    ∀ x ∈ a :: l, (minByResidualScore a l).residual_score ≤ x.residual_score := by
  induction l generalizing a with
  | nil =>
    intro x hx
    simp only [List.mem_singleton] at hx
    subst hx
    simp [minByResidualScore]
  | cons y t ih =>
    intro x hx
    have hseed := ih (if y.residual_score < a.residual_score then y else a)
    have hstep : ∀ z ∈ (if y.residual_score < a.residual_score then y else a) :: t,
        (minByResidualScore a (y :: t)).residual_score ≤ z.residual_score := by
      intro z hz
      simpa only [minByResidualScore, List.foldl_cons] using hseed z hz
    have hhead := hstep (if y.residual_score < a.residual_score then y else a)
      (List.mem_cons_self _ _)
    rcases List.mem_cons.mp hx with h1 | h1
    · subst h1
      split_ifs at hhead <;> omega
    · rcases List.mem_cons.mp h1 with h2 | h2
      · subst h2
        split_ifs at hhead <;> omega
      · exact hstep x (List.mem_cons_of_mem _ h2)

/-- The queryset RiskAssessment.objects.filter(risk=risk, is_current=True,
is_deleted=False): the list argument holds the assessments of the risk. -/
def currentAssessments (assessments : List RiskAssessment) : List RiskAssessment :=
  assessments.filter (fun a => a.is_current && !a.is_deleted)

/-- The dict returned by calculate_aggregate_residual_risk. The
residual_likelihood and residual_impact keys are absent in the
zero-assessment branch, hence Option. -/
structure AggregateResidualRisk where
  residual_score : Int
  residual_level : String
  residual_likelihood : Option Int
  residual_impact : Option Int
  control_count : Nat
  avg_effectiveness : ℚ
  risk_reduction : ℚ
  deriving DecidableEq

/-- RiskCalculationService.calculate_aggregate_residual_risk
(risk/services.py lines 72-119): with no current assessment return the
inherent score and level with control_count 0; otherwise pick the current
assessment with the lowest residual_score (first on ties, as the Python
builtin min), average the effectiveness ratings, and compute the
reduction percentage, rounded to 2 decimals and NOT clamped. -/
def calculate_aggregate_residual_risk (risk : Risk) (assessments : List RiskAssessment) :
    AggregateResidualRisk :=
  match currentAssessments assessments with
  | [] =>
    { residual_score := risk.inherent_risk_score
      residual_level := risk.inherent_risk_level
      residual_likelihood := none
      residual_impact := none
      control_count := 0
      avg_effectiveness := 0
      risk_reduction := 0 }
  | a :: rest =>
    let cur := a :: rest
    let best := minByResidualScore a rest
    let avg : ℚ := (cur.map (fun x => (x.effectiveness_rating : ℚ))).sum / (cur.length : ℚ)
    let rr : ℚ :=
      if risk.inherent_risk_score > 0 then
        ((risk.inherent_risk_score - best.residual_score : ℤ) : ℚ) /
          (risk.inherent_risk_score : ℚ) * 100
      else 0
    { residual_score := best.residual_score
      residual_level := best.residual_risk_level
      residual_likelihood := some best.residual_likelihood
      residual_impact := some best.residual_impact
      control_count := cur.length
      avg_effectiveness := pyRound2 avg
      risk_reduction := pyRound2 rr }

/-- C2: with at least one current non-deleted assessment the aggregate
reports the residual score, level, likelihood and impact of an assessment
attaining the minimum residual_score among the current ones, and
control_count is the number of current assessments; with none it reports
the inherent score and level with control_count 0. -/
theorem aggregate_residual_spec (risk : Risk) (assessments : List RiskAssessment) :
    (currentAssessments assessments ≠ [] →
      (calculate_aggregate_residual_risk risk assessments).control_count =
        (currentAssessments assessments).length ∧
      ∃ b ∈ currentAssessments assessments,
        (calculate_aggregate_residual_risk risk assessments).residual_score = b.residual_score ∧
        (calculate_aggregate_residual_risk risk assessments).residual_level = b.residual_risk_level ∧
        (calculate_aggregate_residual_risk risk assessments).residual_likelihood = some b.residual_likelihood ∧
        (calculate_aggregate_residual_risk risk assessments).residual_impact = some b.residual_impact ∧
        ∀ x ∈ currentAssessments assessments, b.residual_score ≤ x.residual_score) ∧
    (currentAssessments assessments = [] →
      (calculate_aggregate_residual_risk risk assessments).residual_score = risk.inherent_risk_score ∧
      (calculate_aggregate_residual_risk risk assessments).residual_level = risk.inherent_risk_level ∧
      (calculate_aggregate_residual_risk risk assessments).control_count = 0) := by
  rcases hfil : currentAssessments assessments with _ | ⟨a, rest⟩
  · refine ⟨fun h => absurd rfl h, fun _ => ?_⟩
    simp [calculate_aggregate_residual_risk, hfil]
  · refine ⟨fun _ => ⟨?_, minByResidualScore a rest, ?_, ?_, ?_, ?_, ?_, ?_⟩, fun h => ?_⟩
    · simp [calculate_aggregate_residual_risk, hfil]
    · exact minByResidualScore_mem a rest
    · simp [calculate_aggregate_residual_risk, hfil]
    · simp [calculate_aggregate_residual_risk, hfil]
    · simp [calculate_aggregate_residual_risk, hfil]
    · simp [calculate_aggregate_residual_risk, hfil]
    · exact minByResidualScore_le a rest
    · cases h

/-- Rounding an integer value to 2 decimals leaves it unchanged. -/
theorem pyRound2_intCast (z : ℤ) : pyRound2 ((z : ℚ)) = (z : ℚ) := by
  unfold pyRound2 pyRoundEven
  dsimp only
  rw [show ((z : ℚ) * 100) = ((z * 100 : ℤ) : ℚ) by push_cast; ring]
  rw [Int.floor_intCast]
  rw [if_pos (by rw [sub_self]; norm_num)]
  push_cast
  field_simp

/-- C3 amended: with positive inherent score and at least one current
assessment, the reported risk_reduction is the reduction percentage
relative to the chosen residual score, rounded to 2 decimals, with NO
clamp to [0, 100]. -/
theorem aggregate_risk_reduction_unclamped (risk : Risk) (assessments : List RiskAssessment)
    (hpos : 0 < risk.inherent_risk_score)
    (hne : currentAssessments assessments ≠ []) :
    (calculate_aggregate_residual_risk risk assessments).risk_reduction =
      pyRound2 (((risk.inherent_risk_score -
          (calculate_aggregate_residual_risk risk assessments).residual_score : ℤ) : ℚ) /
        (risk.inherent_risk_score : ℚ) * 100) := by
  rcases hfil : currentAssessments assessments with _ | ⟨a, rest⟩
  · exact absurd hfil hne
  · simp [calculate_aggregate_residual_risk, hfil, hpos]

/-- A 2x2 matrix whose table scores the cell (1, 1) as 100 and leaves the
other cells to the product fallback. -/
def cexMatrix : RiskMatrix :=
  { likelihood_levels := 2, impact_levels := 2, risk_score_matrix := [((1, 1), 100)],
    low_risk_threshold := 6, medium_risk_threshold := 12, high_risk_threshold := 20 }

/-- A risk on cexMatrix at likelihood 2, impact 2: inherent score 4
(fallback product), level low. -/
def cexRisk : Risk :=
  { company := 1, inherent_likelihood := 2, inherent_impact := 2,
    inherent_risk_score := 4, inherent_risk_level := "low" }

/-- The assessment assess_risk_with_control creates for cexRisk on
cexMatrix at effectiveness 100: reduction 2, residual (1, 1), stored
score 100 from the table, level critical. -/
def cexAssessment : RiskAssessment :=
  { control_effectiveness := "highly_effective", effectiveness_rating := 100,
    residual_likelihood := 1, residual_impact := 1, residual_score := 100,
    residual_risk_level := "critical", is_current := true, is_deleted := false }

/-- The counterexample state is produced by the assessment service
itself: assessing cexRisk at effectiveness 100 creates exactly
cexAssessment. -/
theorem cexAssessment_reachable :
    assess_risk_with_control cexRisk cexMatrix [] 100 = Except.ok ([cexAssessment], cexAssessment) := by
  have hfl : pyTrunc (((100 : ℤ) : ℚ) / 100 * 2) = 2 := by
    unfold pyTrunc
    rw [if_pos (by norm_num)]
    rw [show ((100 : ℤ) : ℚ) / 100 * 2 = 2 by norm_num]
    rw [show ((2 : ℚ)) = ((2 : ℤ) : ℚ) by norm_num]
    rw [Int.floor_intCast]
  unfold assess_risk_with_control
  dsimp only
  rw [hfl]
  norm_num [cexRisk, cexMatrix, cexAssessment, RiskMatrix.calculate_risk_score,
    RiskMatrix.get_risk_level, max_def]

/-- Counterexample to C3 as stated: for cexRisk with one current
assessment whose stored residual score 100 exceeds the inherent score 4,
the service reports risk_reduction -2400, while the clamped formula of
the claim gives 0. -/
theorem aggregate_risk_reduction_clamp_counterexample :
    0 < cexRisk.inherent_risk_score ∧
    currentAssessments [cexAssessment] ≠ [] ∧
    (calculate_aggregate_residual_risk cexRisk [cexAssessment]).risk_reduction = -2400 ∧
    (calculate_aggregate_residual_risk cexRisk [cexAssessment]).risk_reduction ≠
      max 0 (min 100
        (((cexRisk.inherent_risk_score -
            (calculate_aggregate_residual_risk cexRisk [cexAssessment]).residual_score : ℤ) : ℚ) /
          (cexRisk.inherent_risk_score : ℚ) * 100)) := by
  have hcur : currentAssessments [cexAssessment] = [cexAssessment] := by
    simp [currentAssessments, cexAssessment]
  have hval : (calculate_aggregate_residual_risk cexRisk [cexAssessment]).risk_reduction = -2400 := by
    simp only [calculate_aggregate_residual_risk, hcur]
    rw [show (((cexRisk.inherent_risk_score -
        (minByResidualScore cexAssessment []).residual_score : ℤ) : ℚ) /
        (cexRisk.inherent_risk_score : ℚ) * 100) = ((-2400 : ℤ) : ℚ) by
      norm_num [cexRisk, cexAssessment, minByResidualScore]]
    rw [if_pos (by norm_num [cexRisk])]
    rw [pyRound2_intCast]
    norm_num
  have hscore : (calculate_aggregate_residual_risk cexRisk [cexAssessment]).residual_score = 100 := by
    simp only [calculate_aggregate_residual_risk, hcur]
    simp [minByResidualScore, cexAssessment]
  refine ⟨by norm_num [cexRisk], by rw [hcur]; simp, hval, ?_⟩
  rw [hval, hscore]
  norm_num [cexRisk, max_def, min_def]

/-- Witness for the amended C3 at the concrete counterexample state. -/
theorem aggregate_risk_reduction_unclamped_witness :
    (calculate_aggregate_residual_risk cexRisk [cexAssessment]).risk_reduction =
      pyRound2 (((cexRisk.inherent_risk_score -
          (calculate_aggregate_residual_risk cexRisk [cexAssessment]).residual_score : ℤ) : ℚ) /
        (cexRisk.inherent_risk_score : ℚ) * 100) :=
  aggregate_risk_reduction_unclamped cexRisk [cexAssessment]
    (by norm_num [cexRisk])
    (by simp [currentAssessments, cexAssessment])

/-- Witness for C2 at the concrete one-assessment state. -/
theorem aggregate_residual_spec_witness :
    (calculate_aggregate_residual_risk cexRisk [cexAssessment]).control_count =
      (currentAssessments [cexAssessment]).length :=
  ((aggregate_residual_spec cexRisk [cexAssessment]).1
    (by simp [currentAssessments, cexAssessment])).1

/-! ## Compliance calculation engine
Source: src/backend/compliance/services.py -/

/-- The slice of Requirement read by the engine. -/
structure Requirement where
  id : Nat
  code : String
  title : String
  framework : Nat
  is_mandatory : Bool
  is_deleted : Bool
  deriving DecidableEq

/-- A RequirementReferenceControl mapping row. -/
structure RequirementReferenceControl where
  requirement_id : Nat
  reference_control : ReferenceControl
  validation_status : String
  is_deleted : Bool
  deriving DecidableEq

/-- One entry of the controls list inside a requirement detail. -/
structure ControlInfo where
  id : Nat
  code : String
  name : String
  status : String
  score : Int
  evidence_count : Nat
  deriving DecidableEq

/-- One value of the requirement_details map: code, title, status,
score and control list of one requirement. -/
structure ReqDetail where
  code : String
  title : String
  status : String
  score : ℚ
  controls : List ControlInfo
  deriving DecidableEq

/-- Gap counts by severity as computed by _identify_gaps. -/
@[ext]
structure GapCounts where
  high : Nat
  medium : Nat
  low : Nat
  deriving DecidableEq

/-- The control_summary dict of calculate_framework_compliance. -/
structure ControlSummary where
  total : Nat
  operational : Nat
  implemented : Nat
  in_progress : Nat
  not_started : Nat
  deriving DecidableEq

/-- The evidence_summary dict of calculate_framework_compliance. -/
structure EvidenceSummary where
  controls_with_evidence : Nat
  total_evidence : Nat
  deriving DecidableEq

/-- The processing of one requirement detail by
ComplianceCalculationService._identify_gaps (services.py lines 245-251). -/
def gapStep (g : GapCounts) (p : Nat × ReqDetail) : GapCounts :=
  if p.2.status = "no_controls" ∨ p.2.status = "not_implemented" then
    { g with high := g.high + 1 }
  else if p.2.status = "non_compliant" then
    { g with high := g.high + 1 }
  else if p.2.status = "partial" then
    { g with medium := g.medium + 1 }
  else g

/-- ComplianceCalculationService._identify_gaps (services.py lines
235-253): fold the classification rule over requirement_details, starting
from zero counts. -/
def identify_gaps (requirement_details : List (Nat × ReqDetail)) : GapCounts :=
  requirement_details.foldl gapStep { high := 0, medium := 0, low := 0 }

/-- One gap entry of ComplianceAnalyticsService.get_gap_analysis. -/
structure GapEntry where
  requirement_code : String
  requirement_title : String
  status : String
  score : ℚ
  controls : List ControlInfo
  severity : String
  deriving DecidableEq

/-- The gap list that ComplianceAnalyticsService.get_gap_analysis
(services.py lines 377-431) reconstructs from the requirement_details map
of the current result: entries for the four below-compliant statuses,
with the severity assigned by the same rule as _identify_gaps. -/
def get_gap_analysis_gaps (requirement_details : List (Nat × ReqDetail)) : List GapEntry :=
  requirement_details.filterMap (fun p =>
    if p.2.status = "no_controls" ∨ p.2.status = "not_implemented" ∨
        p.2.status = "non_compliant" ∨ p.2.status = "partial" then
      some { requirement_code := p.2.code, requirement_title := p.2.title,
             status := p.2.status, score := p.2.score, controls := p.2.controls,
             severity :=
               if p.2.status = "no_controls" ∨ p.2.status = "not_implemented" then "high"
               else if p.2.status = "non_compliant" then "high"
               else if p.2.status = "partial" then "medium"
               else "" }
    else none)

/-- The fold of gapStep adds the filter counts of the two status classes
to the seed. -/
theorem identify_gaps_go (t : List (Nat × ReqDetail)) (g : GapCounts) :
    (t.foldl gapStep g).high = g.high +
      (t.filter (fun p => p.2.status == "no_controls" || p.2.status == "not_implemented" ||
        p.2.status == "non_compliant")).length ∧
    (t.foldl gapStep g).medium = g.medium +
      (t.filter (fun p => p.2.status == "partial")).length ∧
    (t.foldl gapStep g).low = g.low := by
  induction t generalizing g with
  | nil => simp
  | cons p rest ih =>
    simp only [List.foldl_cons, List.filter_cons]
    obtain ⟨ih1, ih2, ih3⟩ := ih (gapStep g p)
    unfold gapStep at *
    split_ifs at * with h1 h2 h3 <;> simp_all <;> omega

/-- In the gap list of get_gap_analysis, the count of each severity
equals the filter count of the matching status class. -/
theorem gap_analysis_severity_counts (t : List (Nat × ReqDetail)) :
    ((get_gap_analysis_gaps t).filter (fun gp => gp.severity == "high")).length =
      (t.filter (fun p => p.2.status == "no_controls" || p.2.status == "not_implemented" ||
        p.2.status == "non_compliant")).length ∧
    ((get_gap_analysis_gaps t).filter (fun gp => gp.severity == "medium")).length =
      (t.filter (fun p => p.2.status == "partial")).length ∧
    ((get_gap_analysis_gaps t).filter (fun gp => gp.severity == "low")).length = 0 := by
  induction t with
  | nil => simp [get_gap_analysis_gaps]
  | cons p rest ih =>
    obtain ⟨ih1, ih2, ih3⟩ := ih
    simp only [get_gap_analysis_gaps] at ih1 ih2 ih3 ⊢
    simp only [List.filterMap_cons, List.filter_cons]
    by_cases h1 : p.2.status = "no_controls"
    · simp [h1, ih1, ih2, ih3]
    · by_cases h2 : p.2.status = "not_implemented"
      · simp [h1, h2, ih1, ih2, ih3]
      · by_cases h3 : p.2.status = "non_compliant"
        · simp [h1, h2, h3, ih1, ih2, ih3]
        · by_cases h4 : p.2.status = "partial"
          · simp [h1, h2, h3, h4, ih1, ih2, ih3]
          · simp [h1, h2, h3, h4, ih1, ih2, ih3]

/-- C8: the gap counts computed at calculation time by _identify_gaps
agree exactly, on every requirement_details map, with the by_severity
counts that get_gap_analysis derives independently from the same map. -/
theorem identify_gaps_agrees_with_gap_analysis (requirement_details : List (Nat × ReqDetail)) :
    identify_gaps requirement_details =
      { high := ((get_gap_analysis_gaps requirement_details).filter
          (fun gp => gp.severity == "high")).length,
        medium := ((get_gap_analysis_gaps requirement_details).filter
          (fun gp => gp.severity == "medium")).length,
        low := ((get_gap_analysis_gaps requirement_details).filter
          (fun gp => gp.severity == "low")).length } := by
  obtain ⟨h1, h2, h3⟩ := gap_analysis_severity_counts requirement_details
  obtain ⟨g1, g2, g3⟩ := identify_gaps_go requirement_details { high := 0, medium := 0, low := 0 }
  unfold identify_gaps
  ext
  · simpa [h1] using g1
  · simpa [h2] using g2
  · simpa [h3] using g3

/-- The accumulator state of the requirement loop of
calculate_framework_compliance (services.py lines 61-194). -/
structure LoopState where
  requirements_addressed : Nat
  requirements_compliant : Nat
  requirements_partial : Nat
  requirements_non_compliant : Nat
  requirement_details : List (Nat × ReqDetail)
  control_summary : ControlSummary
  evidence_summary : EvidenceSummary
  total_compliance_points : ℚ
  max_compliance_points : ℚ
  deriving DecidableEq

/-- Assignment into the requirement_details dict: replace the value when
the key is present, append otherwise. -/
def detailsInsert (details : List (Nat × ReqDetail)) (k : Nat) (v : ReqDetail) :
    List (Nat × ReqDetail) :=
  if details.any (fun p => p.1 == k) then
    details.map (fun p => if p.1 = k then (k, v) else p)
  else details ++ [(k, v)]

/-- The queryset RequirementReferenceControl.objects.filter(requirement=
requirement, validation_status=validated, is_deleted=False), projected to
its reference controls. -/
def validatedMappings (mappings : List RequirementReferenceControl) (req_id : Nat) :
    List ReferenceControl :=
  (mappings.filter (fun m =>
    m.requirement_id == req_id && m.validation_status == "validated" && !m.is_deleted)).map
    (fun m => m.reference_control)

/-- The queryset AppliedControl.objects.filter(company=company,
reference_control__in=mapped_controls, is_deleted=False), narrowed by
Q(department=department) OR Q(department__isnull=True) when a department
is given. Membership in mapped_controls compares primary keys. -/
def appliedControlsFor (acs : List AppliedControl) (company : Nat) (department : Option Nat)
    (mapped : List ReferenceControl) : List AppliedControl :=
  let base := acs.filter (fun c =>
    c.company == company && mapped.any (fun rc => rc.id == c.reference_control.id) && !c.is_deleted)
  match department with
  | none => base
  | some d => base.filter (fun c => c.department == some d || c.department == none)

/-- The per-control status tally of the loop (services.py lines 139-148). -/
def controlStatusBucket (s : ControlSummary) (status : String) : ControlSummary :=
  let s := { s with total := s.total + 1 }
  if status = "operational" then { s with operational := s.operational + 1 }
  else if status = "implemented" ∨ status = "testing" then
    { s with implemented := s.implemented + 1 }
  else if status = "in_progress" then { s with in_progress := s.in_progress + 1 }
  else { s with not_started := s.not_started + 1 }

/-- The per-control evidence tally of the loop (services.py lines
150-158); the AppliedControlEvidence count query equals
get_evidence_count, both filter the link table on is_deleted=False. -/
def evidenceBucket (e : EvidenceSummary) (c : AppliedControl) : EvidenceSummary :=
  if c.get_evidence_count > 0 then
    { controls_with_evidence := e.controls_with_evidence + 1,
      total_evidence := e.total_evidence + c.get_evidence_count }
  else e

/-- The body of the requirement loop of calculate_framework_compliance
(services.py lines 85-193) for one requirement. The three classification
branches each carry the shared accumulations of the applied-control
pass. -/
def processRequirement (company : Nat) (department : Option Nat) (today : Int)
    (mappings : List RequirementReferenceControl) (acs : List AppliedControl)
    (st : LoopState) (req : Requirement) : LoopState :=
  let mapped_controls := validatedMappings mappings req.id
  if mapped_controls.isEmpty then
    { st with
      requirements_non_compliant := st.requirements_non_compliant + 1,
      requirement_details := detailsInsert st.requirement_details req.id
        { code := req.code, title := req.title, status := "no_controls", score := 0, controls := [] } }
  else
    let applied_controls := appliedControlsFor acs company department mapped_controls
    if applied_controls.isEmpty then
      { st with
        requirements_non_compliant := st.requirements_non_compliant + 1,
        requirement_details := detailsInsert st.requirement_details req.id
          { code := req.code, title := req.title, status := "not_implemented", score := 0, controls := [] } }
    else
      let control_scores := applied_controls.map (fun c => c.calculate_compliance_score today)
      let control_summary :=
        applied_controls.foldl (fun s c => controlStatusBucket s c.status) st.control_summary
      let evidence_summary := applied_controls.foldl evidenceBucket st.evidence_summary
      let control_info : List ControlInfo := applied_controls.map (fun c =>
        { id := c.id, code := c.reference_control.code, name := c.reference_control.name,
          status := c.status, score := c.calculate_compliance_score today,
          evidence_count := c.get_evidence_count })
      let avg_score : ℚ := ((control_scores.map (fun s => (s : ℚ))).sum) / (control_scores.length : ℚ)
      if avg_score ≥ 85 then
        { requirements_addressed := st.requirements_addressed + 1,
          requirements_compliant := st.requirements_compliant + 1,
          requirements_partial := LoopState.requirements_partial st,
          requirements_non_compliant := st.requirements_non_compliant,
          requirement_details := detailsInsert st.requirement_details req.id
            { code := req.code, title := req.title, status := "compliant",
              score := pyRound2 avg_score, controls := control_info },
          control_summary := control_summary,
          evidence_summary := evidence_summary,
          total_compliance_points := st.total_compliance_points + avg_score,
          max_compliance_points := st.max_compliance_points + 100 }
      else if avg_score ≥ 50 then
        { requirements_addressed := st.requirements_addressed + 1,
          requirements_compliant := st.requirements_compliant,
          requirements_partial := LoopState.requirements_partial st + 1,
          requirements_non_compliant := st.requirements_non_compliant,
          requirement_details := detailsInsert st.requirement_details req.id
            { code := req.code, title := req.title, status := "partial",
              score := pyRound2 avg_score, controls := control_info },
          control_summary := control_summary,
          evidence_summary := evidence_summary,
          total_compliance_points := st.total_compliance_points + avg_score,
          max_compliance_points := st.max_compliance_points + 100 }
      else
        { requirements_addressed := st.requirements_addressed + 1,
          requirements_compliant := st.requirements_compliant,
          requirements_partial := LoopState.requirements_partial st,
          requirements_non_compliant := st.requirements_non_compliant + 1,
          requirement_details := detailsInsert st.requirement_details req.id
            { code := req.code, title := req.title, status := "non_compliant",
              score := pyRound2 avg_score, controls := control_info },
          control_summary := control_summary,
          evidence_summary := evidence_summary,
          total_compliance_points := st.total_compliance_points + avg_score,
          max_compliance_points := st.max_compliance_points + 100 }

/-- The field set of a ComplianceResult snapshot as created by
calculate_framework_compliance (compliance/models.py; absent keyword
arguments take the model defaults: counters 0, empty maps, status
completed, is_current True). -/
structure ComplianceResultData where
  coverage_percentage : ℚ
  compliance_score : ℚ
  total_requirements : Nat
  requirements_addressed : Nat
  requirements_compliant : Nat
  requirements_partial : Nat
  requirements_non_compliant : Nat
  total_controls : Nat
  controls_operational : Nat
  controls_implemented : Nat
  controls_in_progress : Nat
  controls_not_started : Nat
  controls_with_evidence : Nat
  total_evidence_count : Nat
  high_risk_gaps : Nat
  medium_risk_gaps : Nat
  low_risk_gaps : Nat
  requirement_details : List (Nat × ReqDetail)
  control_details : ControlSummary
  status : String
  is_current : Bool
  deriving DecidableEq

/-- The initial loop accumulators (services.py lines 61-82). -/
def initLoopState : LoopState :=
  { requirements_addressed := 0, requirements_compliant := 0, requirements_partial := 0,
    requirements_non_compliant := 0, requirement_details := [],
    control_summary := { total := 0, operational := 0, implemented := 0,
                         in_progress := 0, not_started := 0 },
    evidence_summary := { controls_with_evidence := 0, total_evidence := 0 },
    total_compliance_points := 0, max_compliance_points := 0 }

/-- The pure computation of ComplianceCalculationService.
calculate_framework_compliance (services.py lines 13-233), from the
demotion of prior results (modelled separately at the store level) to the
field set of the created snapshot. -/
def calculate_framework_compliance_data (company framework : Nat) (department : Option Nat)
    (today : Int) (reqs : List Requirement) (mappings : List RequirementReferenceControl)
    (acs : List AppliedControl) : ComplianceResultData :=
  let requirements := reqs.filter (fun r => r.framework == framework && !r.is_deleted && r.is_mandatory)
  let total_requirements := requirements.length
  if total_requirements = 0 then
    { coverage_percentage := 0, compliance_score := 0, total_requirements := 0,
      requirements_addressed := 0, requirements_compliant := 0, requirements_partial := 0,
      requirements_non_compliant := 0, total_controls := 0, controls_operational := 0,
      controls_implemented := 0, controls_in_progress := 0, controls_not_started := 0,
      controls_with_evidence := 0, total_evidence_count := 0,
      high_risk_gaps := 0, medium_risk_gaps := 0, low_risk_gaps := 0,
      requirement_details := [],
      control_details := { total := 0, operational := 0, implemented := 0,
                           in_progress := 0, not_started := 0 },
      status := "completed", is_current := true }
  else
    let st := requirements.foldl (processRequirement company department today mappings acs) initLoopState
    let coverage_percentage : ℚ := ((st.requirements_addressed : ℚ) / (total_requirements : ℚ)) * 100
    let compliance_score : ℚ :=
      if st.max_compliance_points > 0 then
        st.total_compliance_points / st.max_compliance_points * 100
      else 0
    let gap_counts := identify_gaps st.requirement_details
    { coverage_percentage := pyRound2 coverage_percentage,
      compliance_score := pyRound2 compliance_score,
      total_requirements := total_requirements,
      requirements_addressed := st.requirements_addressed,
      requirements_compliant := st.requirements_compliant,
      requirements_partial := LoopState.requirements_partial st,
      requirements_non_compliant := st.requirements_non_compliant,
      total_controls := st.control_summary.total,
      controls_operational := st.control_summary.operational,
      controls_implemented := st.control_summary.implemented,
      controls_in_progress := st.control_summary.in_progress,
      controls_not_started := st.control_summary.not_started,
      controls_with_evidence := st.evidence_summary.controls_with_evidence,
      total_evidence_count := st.evidence_summary.total_evidence,
      high_risk_gaps := gap_counts.high,
      medium_risk_gaps := gap_counts.medium,
      low_risk_gaps := gap_counts.low,
      requirement_details := st.requirement_details,
      control_details := st.control_summary,
      status := "completed", is_current := true }

/-- The keys of the requirement_details map. -/
def detailKeys (details : List (Nat × ReqDetail)) : List Nat := details.map Prod.fst

/-- Inserting a fresh key appends. -/
theorem detailsInsert_of_not_mem (details : List (Nat × ReqDetail)) (k : Nat) (v : ReqDetail)
    (h : k ∉ detailKeys details) : detailsInsert details k v = details ++ [(k, v)] := by
  unfold detailsInsert
  rw [if_neg]
  simp only [List.any_eq_true, beq_iff_eq, not_exists]
  intro p hp
  obtain ⟨hmem, hk⟩ := hp
  exact h (by simpa [detailKeys, hk] using List.mem_map_of_mem Prod.fst hmem)

/-- Gap counting commutes with appending one entry. -/
theorem identify_gaps_append (details : List (Nat × ReqDetail)) (k : Nat) (v : ReqDetail) :
    identify_gaps (details ++ [(k, v)]) = gapStep (identify_gaps details) (k, v) := by
  unfold identify_gaps
  rw [List.foldl_append]
  rfl

/-- The gap-count invariant is preserved by one requirement of the loop,
and the key list grows by the id of that requirement. -/
theorem processRequirement_inv (company : Nat) (department : Option Nat) (today : Int)
    (mappings : List RequirementReferenceControl) (acs : List AppliedControl)
    (st : LoopState) (req : Requirement)
    (hkeys : req.id ∉ detailKeys st.requirement_details)
    (hinv : identify_gaps st.requirement_details =
      { high := st.requirements_non_compliant, medium := LoopState.requirements_partial st, low := 0 }) :
    identify_gaps (processRequirement company department today mappings acs st req).requirement_details =
      { high := (processRequirement company department today mappings acs st req).requirements_non_compliant,
        medium := LoopState.requirements_partial (processRequirement company department today mappings acs st req),
        low := 0 } ∧
    detailKeys (processRequirement company department today mappings acs st req).requirement_details =
      detailKeys st.requirement_details ++ [req.id] := by
  unfold processRequirement
  dsimp only
  split_ifs with h1 h2 h3 h4 <;>
    rw [detailsInsert_of_not_mem _ _ _ hkeys] <;>
    constructor <;>
    simp [identify_gaps_append, hinv, gapStep, detailKeys]

/-- The gap-count invariant is preserved by the whole requirement fold. -/
theorem foldl_processRequirement_inv (company : Nat) (department : Option Nat) (today : Int)
    (mappings : List RequirementReferenceControl) (acs : List AppliedControl) :
    ∀ (rs : List Requirement) (st : LoopState),
      (detailKeys st.requirement_details ++ rs.map (fun r => r.id)).Nodup →
      identify_gaps st.requirement_details =
        { high := st.requirements_non_compliant, medium := LoopState.requirements_partial st, low := 0 } →
      identify_gaps ((rs.foldl (processRequirement company department today mappings acs) st)).requirement_details =
        { high := (rs.foldl (processRequirement company department today mappings acs) st).requirements_non_compliant,
          medium := LoopState.requirements_partial (rs.foldl (processRequirement company department today mappings acs) st),
          low := 0 } := by
  intro rs
  induction rs with
  | nil =>
    intro st _ hinv
    simpa using hinv
  | cons r t ih =>
    intro st hnd hinv
    have hdisj := (List.nodup_append.mp hnd).2.2
    have hkeys : r.id ∉ detailKeys st.requirement_details := by
      intro hmem
      exact hdisj hmem (by simp)
    obtain ⟨hinv2, hkeys2⟩ :=
      processRequirement_inv company department today mappings acs st r hkeys hinv
    simp only [List.foldl_cons]
    apply ih
    · rw [hkeys2, List.append_assoc]
      simpa using hnd
    · exact hinv2

/-- C10: every snapshot computed for a framework with at least one
mandatory requirement satisfies high_risk_gaps = requirements_non_compliant,
medium_risk_gaps = requirements_partial and low_risk_gaps = 0: exactly
the statuses counted as non-compliant (no_controls, not_implemented,
non_compliant) are classified high and exactly partial is classified
medium. Requirement ids are pairwise distinct (primary keys). -/
theorem compliance_result_gap_fields (company framework : Nat) (department : Option Nat)
    (today : Int) (reqs : List Requirement) (mappings : List RequirementReferenceControl)
    (acs : List AppliedControl)
    (hnodup : ((reqs.filter (fun r => r.framework == framework && !r.is_deleted && r.is_mandatory)).map
      (fun r => r.id)).Nodup)
    (hne : reqs.filter (fun r => r.framework == framework && !r.is_deleted && r.is_mandatory) ≠ []) :
    (calculate_framework_compliance_data company framework department today reqs mappings acs).high_risk_gaps =
      (calculate_framework_compliance_data company framework department today reqs mappings acs).requirements_non_compliant ∧
    (calculate_framework_compliance_data company framework department today reqs mappings acs).medium_risk_gaps =
      ComplianceResultData.requirements_partial (calculate_framework_compliance_data company framework department today reqs mappings acs) ∧
    (calculate_framework_compliance_data company framework department today reqs mappings acs).low_risk_gaps = 0 := by
  have hinv := foldl_processRequirement_inv company department today mappings acs
    (reqs.filter (fun r => r.framework == framework && !r.is_deleted && r.is_mandatory))
    initLoopState
    (by simpa [initLoopState, detailKeys] using hnodup)
    (by rfl)
  unfold calculate_framework_compliance_data
  dsimp only
  rw [if_neg (by simpa [List.length_eq_zero] using hne)]
  refine ⟨?_, ?_, ?_⟩ <;> simp [hinv]

/-- A concrete mandatory requirement of framework 1. -/
def wReq : Requirement :=
  { id := 1, code := "R1", title := "Requirement 1", framework := 1,
    is_mandatory := true, is_deleted := false }

/-- Witness for C10: one mandatory requirement, no mappings, no applied
controls. -/
theorem compliance_result_gap_fields_witness :
    (calculate_framework_compliance_data 1 1 none 0 [wReq] [] []).high_risk_gaps =
      (calculate_framework_compliance_data 1 1 none 0 [wReq] [] []).requirements_non_compliant ∧
    (calculate_framework_compliance_data 1 1 none 0 [wReq] [] []).medium_risk_gaps =
      ComplianceResultData.requirements_partial (calculate_framework_compliance_data 1 1 none 0 [wReq] [] []) ∧
    (calculate_framework_compliance_data 1 1 none 0 [wReq] [] []).low_risk_gaps = 0 :=
  compliance_result_gap_fields 1 1 none 0 [wReq] [] [] (by simp [wReq]) (by simp [wReq])

/-! ## The ComplianceResult store: demote-then-create and the single
current invariant. -/

/-- A stored ComplianceResult row. Row ids model insertion order: the
row with the highest id in a scope is the most recently created. -/
structure ComplianceResultRow where
  id : Nat
  company : Nat
  framework : Nat
  department : Option Nat
  is_current : Bool
  is_deleted : Bool
  data : ComplianceResultData
  deriving DecidableEq

/-- The ComplianceResult table plus the id counter. -/
structure ComplianceDB where
  rows : List ComplianceResultRow
  nextId : Nat
  deriving DecidableEq

/-- The underlying data one calculation call reads (requirements,
mappings, applied controls, the calculation date). -/
structure CalcInput where
  today : Int
  reqs : List Requirement
  mappings : List RequirementReferenceControl
  acs : List AppliedControl
  deriving DecidableEq

/-- The row created by one calculation call on a given store state. -/
def newResultRow (db : ComplianceDB) (company framework : Nat) (department : Option Nat)
    (inp : CalcInput) : ComplianceResultRow :=
  { id := db.nextId, company := company, framework := framework, department := department,
    is_current := true, is_deleted := false,
    data := calculate_framework_compliance_data company framework department
      inp.today inp.reqs inp.mappings inp.acs }

/-- The store effect of calculate_framework_compliance (services.py
lines 32-38 and 204-233), one atomic transaction: first every row of the
same (company, framework, department) scope with is_current=True is
updated to is_current=False (the update does not filter on is_deleted),
then the new snapshot row is created with is_current=True. -/
def calculate_framework_compliance_step (db : ComplianceDB) (company framework : Nat)
    (department : Option Nat) (inp : CalcInput) : ComplianceDB :=
  { rows := (db.rows.map (fun r =>
      if r.company == company && r.framework == framework &&
          r.department == department && r.is_current then
        { r with is_current := false }
      else r)) ++ [newResultRow db company framework department inp],
    nextId := db.nextId + 1 }

/-- The queryset of current non-deleted results for a scope. -/
def currentResultsFor (db : ComplianceDB) (company framework : Nat)
    (department : Option Nat) : List ComplianceResultRow :=
  db.rows.filter (fun r =>
    r.company == company && r.framework == framework && r.department == department &&
    r.is_current && !r.is_deleted)

/-- Sequential calculation calls for one scope. -/
def applyCalcs (db : ComplianceDB) (company framework : Nat) (department : Option Nat)
    (calls : List CalcInput) : ComplianceDB :=
  calls.foldl (fun d inp => calculate_framework_compliance_step d company framework department inp) db

/-- After one call, the current rows of the scope are exactly the row
this call created, whatever the store contained before. -/
theorem step_single_current (db : ComplianceDB) (company framework : Nat)
    (department : Option Nat) (inp : CalcInput) :
    currentResultsFor (calculate_framework_compliance_step db company framework department inp)
      company framework department = [newResultRow db company framework department inp] := by
  unfold currentResultsFor calculate_framework_compliance_step
  rw [List.filter_append]
  have h1 : (db.rows.map (fun r =>
      if r.company == company && r.framework == framework &&
          r.department == department && r.is_current then
        { r with is_current := false }
      else r)).filter (fun r =>
        r.company == company && r.framework == framework && r.department == department &&
        r.is_current && !r.is_deleted) = [] := by
    rw [List.filter_eq_nil_iff]
    intro a ha
    obtain ⟨r, _, hr⟩ := List.mem_map.mp ha
    by_cases hc : (r.company == company && r.framework == framework &&
        r.department == department && r.is_current) = true
    · rw [if_pos hc] at hr
      subst hr
      simp
    · rw [if_neg hc] at hr
      subst hr
      simp only [Bool.and_eq_true, beq_iff_eq, Bool.not_eq_true] at hc ⊢
      tauto
  rw [h1]
  simp [newResultRow]

/-- C5: after any positive number of sequential calls for one
(company, framework, department) scope, exactly one non-deleted row of
that scope has is_current=True, and it is the row created by the most
recent call: the demote-then-create step makes the current rows of the
scope exactly the singleton of the newest row. -/
theorem single_current_after_calls (db : ComplianceDB) (company framework : Nat)
    (department : Option Nat) (calls : List CalcInput) (hne : calls ≠ []) :
    currentResultsFor (applyCalcs db company framework department calls)
      company framework department =
      [newResultRow (applyCalcs db company framework department calls.dropLast)
        company framework department (calls.getLast hne)] := by
  conv_lhs => rw [show calls = calls.dropLast ++ [calls.getLast hne] from
    (List.dropLast_append_getLast hne).symm]
  unfold applyCalcs
  rw [List.foldl_append]
  simp only [List.foldl_cons, List.foldl_nil]
  exact step_single_current _ company framework department _

/-- An empty calculation input. -/
def wInput : CalcInput := { today := 0, reqs := [], mappings := [], acs := [] }

/-- An empty store. -/
def wDb : ComplianceDB := { rows := [], nextId := 0 }

/-- Witness for C5: one call on an empty store. -/
theorem single_current_after_calls_witness :
    currentResultsFor (applyCalcs wDb 1 1 none [wInput]) 1 1 none =
      [newResultRow (applyCalcs wDb 1 1 none ([wInput].dropLast)) 1 1 none
        ([wInput].getLast (by simp))] :=
  single_current_after_calls wDb 1 1 none [wInput] (by simp)

/-! ## Recommendation service
Source: src/backend/compliance/services.py, ComplianceRecommendationService. -/

/-- One recommended action. Quote characters of the source f-strings are
omitted from the text fields. -/
structure RecommendedAction where
  priority : String
  action_type : String
  subject : String
  title : String
  description : String
  estimated_impact : String
  deriving DecidableEq

/-- ComplianceRecommendationService.get_prioritized_actions (services.py
lines 437-516). The module compliance/services.py never imports the name
timezone at module scope (only get_compliance_trends imports it locally),
so the expression timezone.now() on line 499 raises NameError whenever
execution reaches step 3; steps 1 and 2 complete before it. The current
result is the first row of the scope per store order (.first() on the
queryset); the evidence-free controls query is capped at 10 rows. -/
def get_prioritized_actions (db : ComplianceDB) (acs : List AppliedControl)
    (company framework : Nat) : Except String (List RecommendedAction) :=
  match (db.rows.filter (fun r =>
      r.company == company && r.framework == framework && r.is_current && !r.is_deleted)).head? with
  | none => .ok []
  | some result =>
    let actions₁ := result.data.requirement_details.filterMap (fun p =>
      if p.2.status = "no_controls" ∨ p.2.status = "not_implemented" then
        some ({ priority := "critical", action_type := "implement_controls", subject := p.2.code,
                title := "Implement controls for " ++ p.2.code,
                description := "Requirement " ++ p.2.title ++ " has no controls implemented",
                estimated_impact := "high" } : RecommendedAction)
      else none)
    let controls_no_evidence := (acs.filter (fun c =>
      c.company == company && !c.is_deleted && c.get_evidence_count == 0)).take 10
    let _actions₂ := actions₁ ++ controls_no_evidence.map (fun c =>
      ({ priority := "high", action_type := "add_evidence", subject := c.reference_control.code,
         title := "Add evidence for " ++ c.reference_control.code,
         description := "Control " ++ c.reference_control.name ++ " has no evidence",
         estimated_impact := "medium" } : RecommendedAction))
    .error "NameError: name timezone is not defined"

/-- C4 (code bug): whenever a current ComplianceResult exists for the
(company, framework) pair, get_prioritized_actions raises NameError
instead of returning a ranked action list, because timezone is not
defined in the module scope of compliance/services.py. -/
theorem get_prioritized_actions_raises (db : ComplianceDB) (acs : List AppliedControl)
    (company framework : Nat)
    (h : db.rows.filter (fun r =>
      r.company == company && r.framework == framework && r.is_current && !r.is_deleted) ≠ []) :
    get_prioritized_actions db acs company framework =
      .error "NameError: name timezone is not defined" := by
  unfold get_prioritized_actions
  cases hh : (db.rows.filter (fun r =>
      r.company == company && r.framework == framework && r.is_current && !r.is_deleted)).head? with
  | none =>
    rw [List.head?_eq_none_iff] at hh
    exact absurd hh h
  | some r => rfl

/-- A stored current result row for company 1, framework 1 with the
zero-requirement snapshot data. -/
def wRow : ComplianceResultRow :=
  { id := 0, company := 1, framework := 1, department := none,
    is_current := true, is_deleted := false,
    data := calculate_framework_compliance_data 1 1 none 0 [] [] [] }

/-- Witness for C4: with one current result in the store, the service
raises. -/
theorem get_prioritized_actions_raises_witness :
    get_prioritized_actions { rows := [wRow], nextId := 1 } [] 1 1 =
      .error "NameError: name timezone is not defined" :=
  get_prioritized_actions_raises { rows := [wRow], nextId := 1 } [] 1 1 (by simp [wRow])
